import Mathlib

/-
Verification development for the `tkp.database.dataset` module: a shallow
embedding of the mini-ORM (`DBObject`, `DataSet`, `Image`, `ExtractedSource`)
together with proofs of the specified properties.

Modelling conventions:
* Python attribute values (strings, floats, datetimes, ...) are opaque to the
  ORM code under study; they are modelled by `Nat`.
* A Python dict is modelled by an association list together with
  lookup / insert / update operations matching dict semantics.
* The database is modelled as a list of rows, each row tagged with its table
  name and integer id, plus a fresh-id counter.  The helper functions of
  `tkp.database.utils` (insert_dataset, insert_image, columns_from_table,
  set_columns_for_table, detect_variable_sources) are not part of the source
  under study; they are modelled from the spec, as documented on each.
* Python exceptions are modelled by the `Err` type; every state-changing
  operation returns `Except Err result × DB`, so that the persisted state is
  observable also on the error paths.
-/

namespace TKP

/-- Opaque attribute values stored in `_data` dictionaries and table rows. -/
abbrev Value := Nat

/-- A Python dict of column name to value, as an association list. -/
abbrev Attrs := List (String × Value)

/-- Dictionary lookup: first binding of the key, if any. -/
def lookupA (d : Attrs) (k : String) : Option Value :=
  (d.find? (fun p => p.1 = k)).map (fun p => p.2)

/-- Dictionary assignment `d[k] = v`: the key is bound to `v`, other keys kept. -/
def insertA (d : Attrs) (k : String) (v : Value) : Attrs :=
  (k, v) :: d.filter (fun p => ¬ p.1 = k)

/-- Python `dict.update(kw)`: every binding of `kw` is written into `d`. -/
def updateA (d : Attrs) (kw : Attrs) : Attrs :=
  kw.foldl (fun a p => insertA a p.1 p.2) d

/-- Python `dict.setdefault(k, v)`: insert `v` only when `k` is absent. -/
def setdefaultA (d : Attrs) (k : String) (v : Value) : Attrs :=
  match lookupA d k with
  | some _ => d
  | none => insertA d k v

@[simp] theorem lookupA_nil (k : String) : lookupA [] k = none := rfl

@[simp] theorem lookupA_cons (p : String × Value) (d : Attrs) (k : String) :
    lookupA (p :: d) k = if p.1 = k then some p.2 else lookupA d k := by
  by_cases h : p.1 = k <;> simp [lookupA, List.find?, h]

@[simp] theorem lookupA_insertA (d : Attrs) (k k' : String) (v : Value) :
    lookupA (insertA d k v) k' = if k = k' then some v else lookupA d k' := by
  by_cases h : k = k'
  · simp [insertA, h]
  · simp only [insertA, lookupA_cons, h, if_false]
    induction d with
    | nil => simp
    | cons p d ih =>
      by_cases hp : p.1 = k <;> by_cases hpk : p.1 = k' <;>
        simp_all [List.filter]

@[simp] theorem updateA_nil (d : Attrs) : updateA d [] = d := rfl

/-- Python exceptions raised by the module, distinguished as in the source:
AttributeError (with its message), KeyError (missing dict key), ValueError
(constructor refusing to run without a database), IndexError (`results[0]`
on an empty query result in `_sync_with_database`). -/
inductive Err where
  | attrErr (msg : String)
  | keyErr (key : String)
  | valueErr
  | indexErr
deriving DecidableEq, Repr

instance {ε α : Type} [DecidableEq ε] [DecidableEq α] : DecidableEq (Except ε α) := fun x y =>
  match x, y with
  | Except.ok a, Except.ok b =>
    if h : a = b then isTrue (by simp [h]) else isFalse (by simp [h])
  | Except.error a, Except.error b =>
    if h : a = b then isTrue (by simp [h]) else isFalse (by simp [h])
  | Except.ok _, Except.error _ => isFalse (by simp)
  | Except.error _, Except.ok _ => isFalse (by simp)

/-- One row of the `runningcatalog` as seen by `detect_variable_sources`:
its dataset id and its variability indices V and eta (modelled as rationals). -/
structure RunCatEntry where
  dsid : Nat
  v : ℚ
  eta : ℚ
deriving DecidableEq, Repr

/-- The persisted state: table rows tagged with table name and integer id,
the running catalog, and the next fresh row id. -/
structure DB where
  rows : List (String × Nat × Attrs)
  runcat : List RunCatEntry
  nextId : Nat
deriving DecidableEq, Repr

/-- Read all columns of the row of `table` with the given id, if present
(models a `SELECT *` by id, as used by `dbu.columns_from_table`). -/
def DB.getRow (db : DB) (table : String) (i : Nat) : Option Attrs :=
  (db.rows.find? (fun r => decide (r.1 = table ∧ r.2.1 = i))).map (fun r => r.2.2)

/-- Insert a new row into `table`; the fresh id is assigned and also stored
under the table's id column (`idCol`). -/
def DB.insertRow (db : DB) (table idCol : String) (attrs : Attrs) : Nat × DB :=
  (db.nextId,
   { rows := (table, db.nextId, insertA attrs idCol db.nextId) :: db.rows,
     runcat := db.runcat,
     nextId := db.nextId + 1 })

/-- Modelled from the spec: `tkp.database.utils.set_columns_for_table` is not
under src/ (only its caller `DBObject._set_data` is); per spec section 4.1,
`apply` "writes the given attributes to the row (ignoring attributes not
matching a known column, which fails silently)".  Rows of `table` whose id
column matches are overlaid with the bindings of `kw` whose key is a column
of the row; other bindings are silently dropped. -/
def DB.setCols (db : DB) (table : String) (i : Option Nat) (kw : Attrs) : DB :=
  { db with rows := db.rows.map (fun r =>
      if r.1 = table ∧ some r.2.1 = i then
        (r.1, r.2.1, updateA r.2.2 (kw.filter (fun p => (lookupA r.2.2 p.1).isSome)))
      else r) }

/-- The in-memory part of a `DBObject`: its `_id`, its `_data` snapshot
dictionary, and whether `self.database` holds a (truthy) connection. -/
structure Obj where
  _id : Option Nat
  _data : Attrs
  hasDB : Bool
deriving DecidableEq, Repr

/-- The class-level constants of a `DBObject` subclass. -/
structure DBClass where
  TABLE : String
  ID : String
  REQUIRED : List String

/-- Class constants of `DataSet` (dataset.py lines 234-236). -/
def datasetsC : DBClass := ⟨"datasets", "dsid", ["dsinname"]⟩

/-- Class constants of `Image` (dataset.py lines 296-298); note `REQUIRED`
does not contain `url`. -/
def imagesC : DBClass :=
  ⟨"images", "imageid", ["ds_id", "tau_time", "freq_eff", "freq_bw", "taustart_ts"]⟩

/-- Class constants of `ExtractedSource` (dataset.py lines 428-430). -/
def xtrsrcC : DBClass :=
  ⟨"extractedsources", "xtrsrcid",
   ["image_id", "zone", "ra", "decl", "ra_err", "decl_err", "x", "y", "z", "det_sigma"]⟩

/-- `DBObject.__getattr__`: look the name up in `_data`; on a missing key the
KeyError is turned into an AttributeError. -/
def DBObject.getattr (o : Obj) (name : String) : Except Err Value :=
  match lookupA o._data name with
  | some v => Except.ok v
  | none => Except.error (Err.attrErr ("attribute not found: " ++ name))

/-- `DBObject._sync_with_database`: re-read the row by `{ID: self._id}` and
replace the whole `_data` snapshot with it; an empty result makes
`results[0]` fail with IndexError.  The database is only read. -/
def DBObject.sync (c : DBClass) (o : Obj) (db : DB) : Except Err Obj :=
  match o._id.bind (fun i => db.getRow c.TABLE i) with
  | some row => Except.ok { o with _data := row }
  | none => Except.error Err.indexErr

/-- `DBObject._set_data`: with no kwargs return immediately; otherwise write
the kwargs to the row via `set_columns_for_table` and then merge all of them
into the `_data` snapshot (`self._data.update(kwargs)`). -/
def DBObject.set_data (c : DBClass) (o : Obj) (kw : Attrs) (db : DB) : Obj × DB :=
  if kw.isEmpty then (o, db)
  else ({ o with _data := updateA o._data kw }, db.setCols c.TABLE o._id kw)

/-- `DBObject.update`: synchronize from the database, then set the supplied
values (dataset.py lines 183-206). -/
def DBObject.update (c : DBClass) (o : Obj) (kw : Attrs) (db : DB) :
    Except Err Obj × DB :=
  match DBObject.sync c o db with
  | Except.error e => (Except.error e, db)
  | Except.ok o1 =>
    let r := DBObject.set_data c o1 kw db
    (Except.ok r.1, r.2)

/-- `DBObject.id` (the generic property, dataset.py lines 153-181): when
`_id` is unset, insert a row built from all of `_data`'s bindings and record
the assigned id; afterwards just return the stored id.  Touching
`self.database.cursor` without a database raises AttributeError. -/
def DBObject.idGet (c : DBClass) (o : Obj) (db : DB) :
    Except Err (Nat × Obj) × DB :=
  match o._id with
  | some i => (Except.ok (i, o), db)
  | none =>
    if o.hasDB then
      let r := db.insertRow c.TABLE c.ID o._data
      (Except.ok (r.1, { o with _id := some r.1 }), r.2)
    else (Except.error (Err.attrErr "NoneType has no attribute cursor"), db)

/-- The REQUIRED check of `DBObject._init_data`: iterate over `REQUIRED` and
raise AttributeError at the first key absent from `_data`. -/
def checkRequired (req : List String) (d : Attrs) : Except Err Unit :=
  match req.find? (fun k => (lookupA d k).isNone) with
  | some k => Except.error (Err.attrErr ("missing required data key: " ++ k))
  | none => Except.ok ()

/-- `DBObject._init_data` (dataset.py lines 127-142): with an id, refresh the
object from the database (`self.update()`); without one, check the REQUIRED
keys and then force an insert by touching the id property (`self.id`), whose
class-specific behaviour is passed as `idF`. -/
def DBObject.initData (c : DBClass) (o : Obj) (db : DB)
    (idF : Obj → DB → Except Err (Nat × Obj) × DB) : Except Err Obj × DB :=
  match o._id with
  | some _ =>
    match DBObject.sync c o db with
    | Except.error e => (Except.error e, db)
    | Except.ok o1 => (Except.ok o1, db)
  | none =>
    match checkRequired c.REQUIRED o._data with
    | Except.error e => (Except.error e, db)
    | Except.ok _ =>
      match idF o db with
      | (Except.error e, db2) => (Except.error e, db2)
      | (Except.ok (_, o1), db2) => (Except.ok o1, db2)

/-- `DataSet.id` (dataset.py lines 253-264).  Modelled from the spec for the
missing `dbu.insert_dataset`: per spec section 4.2, `create(name)` inserts a
dataset row carrying the given name; the call site passes exactly
`self._data["dsinname"]`.  Evaluation order as in the source: the connection
(`self.database.connection`) is touched first, then the `dsinname` key. -/
def DataSet.idGet (o : Obj) (db : DB) : Except Err (Nat × Obj) × DB :=
  match o._id with
  | some i => (Except.ok (i, o), db)
  | none =>
    if o.hasDB then
      match lookupA o._data "dsinname" with
      | none => (Except.error (Err.keyErr "dsinname"), db)
      | some v =>
        let r := db.insertRow "datasets" "dsid" [("dsinname", v)]
        (Except.ok (r.1, { o with _id := some r.1 }), r.2)
    else (Except.error (Err.attrErr "NoneType has no attribute connection"), db)

/-- A `DataSet` instance: the generic object state plus the in-memory
`images` set.  The set holds the member Images' object states. -/
structure DataSetObj where
  base : Obj
  images : List Obj
deriving DecidableEq, Repr

/-- `DataSet.__init__` (dataset.py lines 238-246): basic init, empty image
set, refuse to proceed without a database, then `_init_data` with the
`DataSet`-specific id property. -/
def DataSet.new (data : Option Attrs) (hasDB : Bool) (id : Option Nat) (db : DB) :
    Except Err DataSetObj × DB :=
  let o : Obj := { _id := id, _data := data.getD [], hasDB := hasDB }
  if hasDB then
    match DBObject.initData datasetsC o db DataSet.idGet with
    | (Except.error e, db2) => (Except.error e, db2)
    | (Except.ok o1, db2) => (Except.ok { base := o1, images := [] }, db2)
  else (Except.error Err.valueErr, db)

/-- `Image.id` (dataset.py lines 318-333).  Modelled from the spec for the
missing `dbu.insert_image`: per spec section 4.3 the insert carries `ds_id`
taken from the dataset's identity; the call site passes exactly
`(connection, self.dataset.id, freq_eff, freq_bw, taustart_ts, url)` — note
that `tau_time` is not among the inserted values and that `url` is read from
`_data` although it is not in `REQUIRED`.  Evaluation order as in the
source: connection, then `self.dataset.id` (which may itself insert a
dataset row), then the four `_data` keys. -/
def Image.idGet (o : Obj) (dsOpt : Option DataSetObj) (db : DB) :
    Except Err (Nat × Obj × Option DataSetObj) × DB :=
  match o._id with
  | some i => (Except.ok (i, o, dsOpt), db)
  | none =>
    if o.hasDB then
      match dsOpt with
      | none => (Except.error (Err.attrErr "NoneType has no attribute id"), db)
      | some ds =>
        match DataSet.idGet ds.base db with
        | (Except.error e, db1) => (Except.error e, db1)
        | (Except.ok (dsid, dsb), db1) =>
          let ds1 : DataSetObj := { base := dsb, images := ds.images }
          match lookupA o._data "freq_eff" with
          | none => (Except.error (Err.keyErr "freq_eff"), db1)
          | some fe =>
            match lookupA o._data "freq_bw" with
            | none => (Except.error (Err.keyErr "freq_bw"), db1)
            | some fb =>
              match lookupA o._data "taustart_ts" with
              | none => (Except.error (Err.keyErr "taustart_ts"), db1)
              | some ts =>
                match lookupA o._data "url" with
                | none => (Except.error (Err.keyErr "url"), db1)
                | some u =>
                  let r := db1.insertRow "images" "imageid"
                    [("ds_id", dsid), ("freq_eff", fe), ("freq_bw", fb),
                     ("taustart_ts", ts), ("url", u)]
                  (Except.ok (r.1, { o with _id := some r.1 }, some ds1), r.2)
    else (Except.error (Err.attrErr "NoneType has no attribute connection"), db)

/-- `Image.__init__` (dataset.py lines 300-315).  With a dataset argument the
image borrows the dataset's database when it has none of its own, registers
itself into `dataset.images` and sets `ds_id` by
`self._data.setdefault("ds_id", self.dataset.id)` — the default argument
`self.dataset.id` is evaluated eagerly (possibly inserting a dataset row)
even when `ds_id` is already present.  In Python the set receives a
reference to the image object that is mutated in place by the rest of the
constructor; in this value-based model the finished object is inserted, so
the set's end state agrees. -/
def Image.new (data : Option Attrs) (dsOpt : Option DataSetObj) (hasDB : Bool)
    (id : Option Nat) (db : DB) : Except Err (Obj × Option DataSetObj) × DB :=
  let o0 : Obj := { _id := id, _data := data.getD [], hasDB := hasDB }
  match dsOpt with
  | none =>
    if hasDB then
      match o0._id with
      | some _ =>
        match DBObject.sync imagesC o0 db with
        | Except.error e => (Except.error e, db)
        | Except.ok o1 => (Except.ok (o1, none), db)
      | none =>
        match checkRequired imagesC.REQUIRED o0._data with
        | Except.error e => (Except.error e, db)
        | Except.ok _ =>
          match Image.idGet o0 none db with
          | (Except.error e, db2) => (Except.error e, db2)
          | (Except.ok (_, o1, dsr), db2) => (Except.ok (o1, dsr), db2)
    else (Except.error Err.valueErr, db)
  | some ds =>
    let o1 := if ds.base.hasDB && !o0.hasDB then { o0 with hasDB := true } else o0
    match DataSet.idGet ds.base db with
    | (Except.error e, db1) => (Except.error e, db1)
    | (Except.ok (dsid, dsb), db1) =>
      let ds1 : DataSetObj := { base := dsb, images := ds.images }
      let o2 := { o1 with _data := setdefaultA o1._data "ds_id" dsid }
      if o2.hasDB then
        match o2._id with
        | some _ =>
          match DBObject.sync imagesC o2 db1 with
          | Except.error e => (Except.error e, db1)
          | Except.ok o3 =>
            (Except.ok (o3, some { ds1 with images := o3 :: ds1.images }), db1)
        | none =>
          match checkRequired imagesC.REQUIRED o2._data with
          | Except.error e => (Except.error e, db1)
          | Except.ok _ =>
            match Image.idGet o2 (some ds1) db1 with
            | (Except.error e, db2) => (Except.error e, db2)
            | (Except.ok (_, o3, dsr), db2) =>
              match dsr with
              | some ds2 =>
                (Except.ok (o3, some { ds2 with images := o3 :: ds2.images }), db2)
              | none => (Except.ok (o3, none), db2)
      else (Except.error Err.valueErr, db1)

/-- `ExtractedSource.__init__` (dataset.py lines 432-446).  With an image
argument, the database is borrowed from `self.image.dataset.database` (not
from the image itself); a dataset-less image makes that access raise
AttributeError.  `image_id` is set by
`self._data.setdefault("image_id", self.image.id)`, whose default argument
is evaluated eagerly and may insert image (and dataset) rows.  The image's
`sources` set is not modelled (no claim mentions it). -/
def ExtractedSource.new (data : Option Attrs)
    (imgOpt : Option (Obj × Option DataSetObj)) (hasDB : Bool) (id : Option Nat)
    (db : DB) : Except Err Obj × DB :=
  let o0 : Obj := { _id := id, _data := data.getD [], hasDB := hasDB }
  match imgOpt with
  | none =>
    if hasDB then DBObject.initData xtrsrcC o0 db (DBObject.idGet xtrsrcC)
    else (Except.error Err.valueErr, db)
  | some (img, dsOpt) =>
    match dsOpt with
    | none => (Except.error (Err.attrErr "NoneType has no attribute database"), db)
    | some ds =>
      let o1 := if ds.base.hasDB && !o0.hasDB then { o0 with hasDB := true } else o0
      match Image.idGet img (some ds) db with
      | (Except.error e, db1) => (Except.error e, db1)
      | (Except.ok (iid, _, _), db1) =>
        let o2 := { o1 with _data := setdefaultA o1._data "image_id" iid }
        if o2.hasDB then DBObject.initData xtrsrcC o2 db1 (DBObject.idGet xtrsrcC)
        else (Except.error Err.valueErr, db1)

/-- Modelled from the spec: `tkp.database.utils.detect_variable_sources` is
not under src/ (only its caller `DataSet.detect_variables` is); per spec
sections 4.2 and 8 it returns the RunningCatalogEntries of the given dataset
whose variability indices exceed both thresholds, mutating nothing. -/
def detect_variable_sources (entries : List RunCatEntry) (dsid : Option Nat)
    (vlim etalim : ℚ) : List RunCatEntry :=
  entries.filter (fun e => decide (some e.dsid = dsid ∧ vlim < e.v ∧ etalim < e.eta))

/-- Default `V_lim` of `DataSet.detect_variables` (dataset.py line 286); the
Python float literal 0.2 is modelled as the rational 2/10. -/
def V_lim_default : ℚ := 2/10

/-- Default `eta_lim` of `DataSet.detect_variables` (dataset.py line 286). -/
def eta_lim_default : ℚ := 3

/-- `DataSet.detect_variables` (dataset.py lines 286-290): delegate to
`detect_variable_sources` with this dataset's `_id`.  The database state is
only read, never changed. -/
def DataSet.detect_variables (ds : DataSetObj) (db : DB) (vlim etalim : ℚ) :
    List RunCatEntry :=
  detect_variable_sources db.runcat ds.base._id vlim etalim

/-- `DataSet.detect_variables` called with its default thresholds. -/
def DataSet.detect_variables_defaults (ds : DataSetObj) (db : DB) :
    List RunCatEntry :=
  DataSet.detect_variables ds db V_lim_default eta_lim_default

/-- Writing columns of the row with id `i` overlays onto it exactly the
supplied bindings whose keys are columns of that row. -/
theorem DB.getRow_setCols (db : DB) (t : String) (i : Nat) (kw : Attrs)
    (row : Attrs) (h : db.getRow t i = some row) :
    (db.setCols t (some i) kw).getRow t i =
      some (updateA row (kw.filter (fun p => (lookupA row p.1).isSome))) := by
  rcases db with ⟨rows, rc, n⟩
  simp only [DB.getRow, DB.setCols] at h ⊢
  induction rows with
  | nil => simp at h
  | cons r rs ih =>
    rcases r with ⟨rt, ri, rd⟩
    by_cases hr : rt = t ∧ ri = i
    · obtain ⟨h1, h2⟩ := hr
      subst h1; subst h2
      rw [List.find?_cons_of_pos _ (by simp)] at h
      simp only [Option.map_some', Option.some.injEq] at h
      subst h
      rw [List.map_cons,
        if_pos (by simp : ((rt, ri, rd).1 = rt ∧ some (rt, ri, rd).2.1 = some ri))]
      rw [List.find?_cons_of_pos _ (by simp)]
      rfl
    · rw [List.find?_cons_of_neg _ (by simp [hr])] at h
      rw [List.map_cons, if_neg (by simpa using hr)]
      rw [List.find?_cons_of_neg _ (by simp [hr])]
      exact ih h

/-- A freshly inserted row is read back as the supplied attributes with the
id column added. -/
theorem DB.getRow_insertRow_self (db : DB) (t idc : String) (a : Attrs) :
    (db.insertRow t idc a).2.getRow t db.nextId = some (insertA a idc db.nextId) := by
  simp [DB.insertRow, DB.getRow]

/-- Shared concrete state for witnesses: a database holding one dataset row. -/
def dbW : DB :=
  { rows := [("datasets", 1, [("dsid", 1), ("dsinname", 42)])],
    runcat := [], nextId := 2 }

/-- Shared concrete state for witnesses: the dataset stored in `dbW`. -/
def dsW : DataSetObj :=
  { base := { _id := some 1, _data := [("dsid", 1), ("dsinname", 42)], hasDB := true },
    images := [] }

/-- C2: on an entity with an assigned identity, `update()` with no keyword
arguments leaves the database exactly as it was and only replaces the
in-memory snapshot with the current row's values; when the row is missing
it fails, still without writing. -/
theorem update_noargs_readonly_refresh (c : DBClass) (o : Obj) (db : DB)
    (i : Nat) (h : o._id = some i) :
    (∀ row, db.getRow c.TABLE i = some row →
      DBObject.update c o [] db = (Except.ok { o with _data := row }, db)) ∧
    (db.getRow c.TABLE i = none →
      DBObject.update c o [] db = (Except.error Err.indexErr, db)) := by
  constructor
  · intro row hrow
    simp [DBObject.update, DBObject.sync, h, hrow, DBObject.set_data]
  · intro hrow
    simp [DBObject.update, DBObject.sync, h, hrow]

/-- Witness for C2 at a concrete dataset object. -/
theorem update_noargs_readonly_refresh_witness :
    DBObject.update datasetsC ⟨some 1, [("stale", 7)], true⟩ [] dbW =
      (Except.ok ⟨some 1, [("dsid", 1), ("dsinname", 42)], true⟩, dbW) :=
  (update_noargs_readonly_refresh datasetsC ⟨some 1, [("stale", 7)], true⟩ dbW 1
    rfl).1 [("dsid", 1), ("dsinname", 42)] (by decide)

/-- C3: on an entity with an assigned identity, `update(attributes)` discards
the in-memory snapshot (whatever local edits it held), and ends with the
snapshot equal to the pre-call database row overlaid with exactly the
supplied attributes; the database row itself receives the supplied
attributes restricted to its known columns. -/
theorem update_overlays_supplied_attributes (c : DBClass) (o : Obj) (db : DB)
    (i : Nat) (row kw : Attrs) (h : o._id = some i)
    (hrow : db.getRow c.TABLE i = some row) :
    ∃ o2 db2, DBObject.update c o kw db = (Except.ok o2, db2) ∧
      o2._id = some i ∧ o2.hasDB = o.hasDB ∧
      o2._data = updateA row kw ∧
      db2.getRow c.TABLE i =
        some (updateA row (kw.filter (fun p => (lookupA row p.1).isSome))) := by
  rcases hkw : kw with _ | ⟨p, kws⟩
  · refine ⟨{ o with _data := row }, db, ?_, by simp [h], rfl, by simp, by simp [hrow]⟩
    simp [DBObject.update, DBObject.sync, h, hrow, DBObject.set_data]
  · refine ⟨{ o with _data := updateA row (p :: kws) },
      db.setCols c.TABLE (some i) (p :: kws), ?_, by simp [h], rfl, rfl, ?_⟩
    · simp [DBObject.update, DBObject.sync, h, hrow, DBObject.set_data]
    · exact DB.getRow_setCols db c.TABLE i (p :: kws) row hrow

/-- Witness for C3: updating the stored dataset with a known and an unknown
column from a locally edited object. -/
theorem update_overlays_supplied_attributes_witness :
    ∃ o2 db2,
      DBObject.update datasetsC ⟨some 1, [("dsinname", 99)], true⟩
          [("dsinname", 7), ("bogus", 8)] dbW = (Except.ok o2, db2) ∧
      o2._id = some 1 ∧ o2.hasDB = true ∧
      o2._data = updateA [("dsid", 1), ("dsinname", 42)]
        [("dsinname", 7), ("bogus", 8)] ∧
      db2.getRow "datasets" 1 =
        some (updateA [("dsid", 1), ("dsinname", 42)]
          ([("dsinname", 7), ("bogus", 8)].filter
            (fun p => (lookupA [("dsid", 1), ("dsinname", 42)] p.1).isSome))) :=
  update_overlays_supplied_attributes datasetsC
    ⟨some 1, [("dsinname", 99)], true⟩ dbW 1 [("dsid", 1), ("dsinname", 42)]
    [("dsinname", 7), ("bogus", 8)] rfl (by decide)

/-- C8: the generic id property assigns an identity at most once: with an
identity already stored it returns it and changes nothing; on first
evaluation it inserts exactly one row, stores the fresh identity, and a
second evaluation returns the same identity without touching the database
again. -/
theorem id_assigned_at_most_once (c : DBClass) (o : Obj) (db : DB)
    (h : o.hasDB = true) :
    (∀ i, o._id = some i → DBObject.idGet c o db = (Except.ok (i, o), db)) ∧
    (o._id = none →
      DBObject.idGet c o db =
        (Except.ok (db.nextId, { o with _id := some db.nextId }),
          (db.insertRow c.TABLE c.ID o._data).2) ∧
      (db.insertRow c.TABLE c.ID o._data).2.rows =
        (c.TABLE, db.nextId, insertA o._data c.ID db.nextId) :: db.rows ∧
      DBObject.idGet c { o with _id := some db.nextId }
          (db.insertRow c.TABLE c.ID o._data).2 =
        (Except.ok (db.nextId, { o with _id := some db.nextId }),
          (db.insertRow c.TABLE c.ID o._data).2)) := by
  constructor
  · intro i hi
    simp [DBObject.idGet, hi]
  · intro hnone
    refine ⟨?_, rfl, ?_⟩
    · simp [DBObject.idGet, hnone, h, DB.insertRow]
    · simp [DBObject.idGet]

/-- C5 (amended): `_set_data` never raises; the database row receives only the
supplied bindings whose keys are known columns of the row (the others are
silently dropped), while the in-memory snapshot is updated with all supplied
bindings, including the dropped ones. -/
theorem set_data_updates_snapshot_with_all (c : DBClass) (o : Obj) (kw : Attrs)
    (db : DB) (i : Nat) (row : Attrs) (h : o._id = some i)
    (hrow : db.getRow c.TABLE i = some row) :
    (DBObject.set_data c o kw db).1._data = updateA o._data kw ∧
    (DBObject.set_data c o kw db).2.getRow c.TABLE i =
      some (updateA row (kw.filter (fun p => (lookupA row p.1).isSome))) := by
  rcases kw with _ | ⟨p, kws⟩
  · exact ⟨by simp [DBObject.set_data], by simpa [DBObject.set_data] using hrow⟩
  · have hred : DBObject.set_data c o (p :: kws) db =
        ({ o with _data := updateA o._data (p :: kws) },
         db.setCols c.TABLE o._id (p :: kws)) := by
      simp [DBObject.set_data]
    rw [hred, h]
    exact ⟨rfl, DB.getRow_setCols db c.TABLE i (p :: kws) row hrow⟩

/-- Witness for C5's amended theorem at a concrete dataset object. -/
theorem set_data_updates_snapshot_with_all_witness :
    (DBObject.set_data datasetsC ⟨some 1, [("dsinname", 42)], true⟩
        [("bogus", 7)] dbW).1._data =
      updateA [("dsinname", 42)] [("bogus", 7)] ∧
    (DBObject.set_data datasetsC ⟨some 1, [("dsinname", 42)], true⟩
        [("bogus", 7)] dbW).2.getRow "datasets" 1 =
      some (updateA [("dsid", 1), ("dsinname", 42)]
        ([("bogus", 7)].filter
          (fun p => (lookupA [("dsid", 1), ("dsinname", 42)] p.1).isSome))) :=
  set_data_updates_snapshot_with_all datasetsC ⟨some 1, [("dsinname", 42)], true⟩
    [("bogus", 7)] dbW 1 [("dsid", 1), ("dsinname", 42)] rfl (by decide)

/-- Counterexample to C5 as stated: applying the unknown binding `bogus := 7`
to a synchronized dataset object does not raise and writes nothing to the
row, yet the in-memory snapshot is not `old snapshot updated with exactly
the written values` (that would leave it unchanged): it now also carries
the never-written `bogus` binding. -/
theorem set_data_snapshot_keeps_ignored_keys :
    (DBObject.set_data datasetsC ⟨some 1, [("dsinname", 42)], true⟩
        [("bogus", 7)] dbW).2.getRow "datasets" 1 =
      some [("dsid", 1), ("dsinname", 42)] ∧
    lookupA (DBObject.set_data datasetsC ⟨some 1, [("dsinname", 42)], true⟩
        [("bogus", 7)] dbW).1._data "bogus" = some 7 ∧
    ¬ (DBObject.set_data datasetsC ⟨some 1, [("dsinname", 42)], true⟩
        [("bogus", 7)] dbW).1._data =
      updateA [("dsinname", 42)]
        ([("bogus", 7)].filter
          (fun p => (lookupA [("dsid", 1), ("dsinname", 42)] p.1).isSome)) := by
  decide

/-- C6 (amended): attribute access by name resolves against the in-memory
snapshot alone: it returns the snapshot's value when the name is bound
there, and fails with AttributeError exactly when the name is absent from
the snapshot — the declared schema (`REQUIRED`) plays no part. -/
theorem getattr_resolves_snapshot_only (o : Obj) (name : String) :
    (∀ v, lookupA o._data name = some v → DBObject.getattr o name = Except.ok v) ∧
    (lookupA o._data name = none →
      DBObject.getattr o name =
        Except.error (Err.attrErr ("attribute not found: " ++ name))) := by
  constructor
  · intro v hv
    simp [DBObject.getattr, hv]
  · intro hn
    simp [DBObject.getattr, hn]

/-- Witness for C6's amended theorem at a concrete object. -/
theorem getattr_resolves_snapshot_only_witness :
    DBObject.getattr ⟨some 1, [("ra", 3)], true⟩ "ra" = Except.ok 3 ∧
    DBObject.getattr ⟨some 1, [("ra", 3)], true⟩ "decl" =
      Except.error (Err.attrErr "attribute not found: decl") :=
  ⟨(getattr_resolves_snapshot_only ⟨some 1, [("ra", 3)], true⟩ "ra").1 3 (by decide),
   (getattr_resolves_snapshot_only ⟨some 1, [("ra", 3)], true⟩ "decl").2 (by decide)⟩

/-- The result of creating an Image with all its REQUIRED keys plus `url`
against the dataset stored in `dbW` (used to exhibit a loaded Image). -/
def imgCreateW : Except Err (Obj × Option DataSetObj) × DB :=
  Image.new (some [("tau_time", 30), ("freq_eff", 80), ("freq_bw", 2),
    ("taustart_ts", 7), ("url", 9)]) (some dsW) true none dbW

/-- The in-memory state of the Image of `imgCreateW` after loading it back
by its identity: the row carries no `tau_time` column. -/
def imgLoadedW : Obj :=
  ⟨some 2, [("imageid", 2), ("ds_id", 1), ("freq_eff", 80), ("freq_bw", 2),
    ("taustart_ts", 7), ("url", 9)], true⟩

/-- Counterexample to C6 as stated: `tau_time` is in Image's declared schema
(its REQUIRED set), and the Image loaded back from the database lacks it in
its snapshot; the claim then demands that access succeed, but the code
fails with AttributeError regardless of the schema. -/
theorem getattr_fails_despite_declared_schema :
    "tau_time" ∈ imagesC.REQUIRED ∧
    (Image.new none none true (some 2) imgCreateW.2).1 =
      Except.ok (imgLoadedW, none) ∧
    lookupA imgLoadedW._data "tau_time" = none ∧
    DBObject.getattr imgLoadedW "tau_time" =
      Except.error (Err.attrErr "attribute not found: tau_time") := by
  decide

/-- Witness for C8 at a fresh extracted-source object. -/
theorem id_assigned_at_most_once_witness :
    DBObject.idGet xtrsrcC ⟨none, [("ra", 5)], true⟩ dbW =
      (Except.ok (2, ⟨some 2, [("ra", 5)], true⟩),
        (dbW.insertRow "extractedsources" "xtrsrcid" [("ra", 5)]).2) ∧
    DBObject.idGet xtrsrcC ⟨some 2, [("ra", 5)], true⟩
        (dbW.insertRow "extractedsources" "xtrsrcid" [("ra", 5)]).2 =
      (Except.ok (2, ⟨some 2, [("ra", 5)], true⟩),
        (dbW.insertRow "extractedsources" "xtrsrcid" [("ra", 5)]).2) :=
  ⟨((id_assigned_at_most_once xtrsrcC ⟨none, [("ra", 5)], true⟩ dbW rfl).2 rfl).1,
   ((id_assigned_at_most_once xtrsrcC ⟨none, [("ra", 5)], true⟩ dbW rfl).2 rfl).2.2⟩

/-- Shared concrete state for the variability scenario: the dataset of `dbW`
with two running-catalog entries, V=1/2, eta=10 and V=1/10, eta=1. -/
def dbV : DB :=
  { rows := [("datasets", 1, [("dsid", 1), ("dsinname", 42)])],
    runcat := [⟨1, 1/2, 10⟩, ⟨1, 1/10, 1⟩], nextId := 2 }

/-- C9: `detect_variables` returns exactly the running-catalog entries of
this dataset whose variability indices exceed both thresholds (reading the
state, never changing it — the operation returns only a list); its default
thresholds are V_lim = 0.2 and eta_lim = 3; and on entries with V=0.5,
eta=10 and V=0.1, eta=1, thresholds (0.2, 3) select only the first. -/
theorem detect_variables_exceeding_both (ds : DataSetObj) (db : DB)
    (vlim etalim : ℚ) :
    (∀ e, e ∈ DataSet.detect_variables ds db vlim etalim ↔
      (e ∈ db.runcat ∧ some e.dsid = ds.base._id ∧ vlim < e.v ∧ etalim < e.eta)) ∧
    V_lim_default = 2/10 ∧ eta_lim_default = 3 ∧
    DataSet.detect_variables dsW dbV (2/10) 3 = [⟨1, 1/2, 10⟩] ∧
    DataSet.detect_variables_defaults dsW dbV = [⟨1, 1/2, 10⟩] := by
  refine ⟨?_, rfl, rfl, ?_, ?_⟩
  · intro e
    simp [DataSet.detect_variables, detect_variable_sources, List.mem_filter]
  · simp only [DataSet.detect_variables, detect_variable_sources, dsW, dbV,
      List.filter_cons, List.filter_nil, decide_eq_true_eq]
    norm_num
  · simp only [DataSet.detect_variables_defaults, DataSet.detect_variables,
      detect_variable_sources, dsW, dbV, V_lim_default, eta_lim_default,
      List.filter_cons, List.filter_nil, decide_eq_true_eq]
    norm_num

/-- C10: a DataSet constructed without a database fails with ValueError and
leaves the persisted state unchanged; an Image constructed without a
database and with no database reachable through its dataset argument fails
with an error and leaves the persisted state unchanged; likewise an
ExtractedSource with no database reachable directly or through its image
argument. -/
theorem no_database_no_creation :
    (∀ data id db, DataSet.new data false id db = (Except.error Err.valueErr, db)) ∧
    (∀ data dsOpt id db,
      (dsOpt = none ∨ ∃ ds, dsOpt = some ds ∧ ds.base.hasDB = false) →
      ∃ e, Image.new data dsOpt false id db = (Except.error e, db)) ∧
    (∀ data imgOpt id db,
      (imgOpt = none ∨
        ∃ img dsOpt2, imgOpt = some (img, dsOpt2) ∧ img.hasDB = false ∧
          (dsOpt2 = none ∨ ∃ ds, dsOpt2 = some ds ∧ ds.base.hasDB = false)) →
      ∃ e, ExtractedSource.new data imgOpt false id db = (Except.error e, db)) := by
  refine ⟨?_, ?_, ?_⟩
  · intro data id db
    simp [DataSet.new]
  · rintro data dsOpt id db (rfl | ⟨ds, rfl, hds⟩)
    · exact ⟨Err.valueErr, by simp [Image.new]⟩
    · rcases hid : ds.base._id with _ | i
      · exact ⟨Err.attrErr "NoneType has no attribute connection",
          by simp [Image.new, DataSet.idGet, hid, hds]⟩
      · exact ⟨Err.valueErr, by simp [Image.new, DataSet.idGet, hid, hds]⟩
  · rintro data imgOpt id db
      (rfl | ⟨img, dsOpt2, rfl, himg, (rfl | ⟨ds, rfl, hds⟩)⟩)
    · exact ⟨Err.valueErr, by simp [ExtractedSource.new]⟩
    · exact ⟨Err.attrErr "NoneType has no attribute database",
        by simp [ExtractedSource.new]⟩
    · rcases hid : img._id with _ | i
      · exact ⟨Err.attrErr "NoneType has no attribute connection",
          by simp [ExtractedSource.new, Image.idGet, hid, himg, hds]⟩
      · exact ⟨Err.valueErr,
          by simp [ExtractedSource.new, Image.idGet, hid, himg, hds]⟩

/-- Witness for C10: each constructor refused at a concrete input. -/
theorem no_database_no_creation_witness :
    DataSet.new (some [("dsinname", 42)]) false none dbW =
      (Except.error Err.valueErr, dbW) ∧
    (∃ e, Image.new (some [("url", 9)]) none false none dbW =
      (Except.error e, dbW)) ∧
    (∃ e, ExtractedSource.new (some [("ra", 3)]) none false none dbW =
      (Except.error e, dbW)) :=
  ⟨no_database_no_creation.1 (some [("dsinname", 42)]) none dbW,
   no_database_no_creation.2.1 (some [("url", 9)]) none none dbW (Or.inl rfl),
   no_database_no_creation.2.2 (some [("ra", 3)]) none none dbW (Or.inl rfl)⟩

/-- The REQUIRED check succeeds on an empty requirement list. -/
theorem checkRequired_nil (d : Attrs) : checkRequired [] d = Except.ok () := rfl

/-- Unfolding step of the REQUIRED check: the head key is examined first. -/
theorem checkRequired_cons (k : String) (req : List String) (d : Attrs) :
    checkRequired (k :: req) d =
      match lookupA d k with
      | none => Except.error (Err.attrErr ("missing required data key: " ++ k))
      | some _ => checkRequired req d := by
  cases h : lookupA d k with
  | none =>
    rw [checkRequired, List.find?_cons_of_pos _ (by simp [h])]
  | some v =>
    rw [checkRequired, List.find?_cons_of_neg _ (by simp [h])]
    rfl

/-- The REQUIRED check succeeds when every required key is bound. -/
theorem checkRequired_ok (req : List String) (d : Attrs)
    (h : ∀ k ∈ req, (lookupA d k).isSome) : checkRequired req d = Except.ok () := by
  have hf : req.find? (fun k => (lookupA d k).isNone) = none :=
    List.find?_eq_none.mpr (fun k hk => by
      rcases Option.isSome_iff_exists.mp (h k hk) with ⟨a, ha⟩
      simp [ha])
  simp [checkRequired, hf]

/-- Creating a DataSet fresh with `dsinname` bound inserts one dataset row
carrying only `dsinname`, and keeps the supplied dictionary as snapshot. -/
theorem dataset_fresh_create (data : Attrs) (v : Value) (db : DB)
    (h : lookupA data "dsinname" = some v) :
    DataSet.new (some data) true none db =
      (Except.ok { base := { _id := some db.nextId, _data := data, hasDB := true },
                   images := [] },
       (db.insertRow "datasets" "dsid" [("dsinname", v)]).2) := by
  have hreq : checkRequired datasetsC.REQUIRED data = Except.ok () := by
    apply checkRequired_ok
    intro k hk
    simp [datasetsC] at hk
    subst hk
    simp [h]
  simp [DataSet.new, DBObject.initData, hreq, DataSet.idGet, h, DB.insertRow]

/-- Loading a DataSet by identity reads the row back as the snapshot. -/
theorem dataset_load_by_id (i : Nat) (db : DB) (row : Attrs)
    (h : db.getRow "datasets" i = some row) :
    DataSet.new none true (some i) db =
      (Except.ok { base := { _id := some i, _data := row, hasDB := true },
                   images := [] }, db) := by
  simp [DataSet.new, DBObject.initData, DBObject.sync, datasetsC, h]

/-- Loading an Image by identity reads the row back as the snapshot. -/
theorem image_load_by_id (i : Nat) (db : DB) (row : Attrs)
    (h : db.getRow "images" i = some row) :
    Image.new none none true (some i) db =
      (Except.ok ({ _id := some i, _data := row, hasDB := true }, none), db) := by
  simp [Image.new, DBObject.sync, imagesC, h]

/-- Creating an ExtractedSource fresh (no image argument) with all REQUIRED
keys bound inserts one row holding the entire supplied dictionary. -/
theorem xtrsrc_fresh_create (data : Attrs) (db : DB)
    (h : ∀ k ∈ xtrsrcC.REQUIRED, (lookupA data k).isSome) :
    ExtractedSource.new (some data) none true none db =
      (Except.ok { _id := some db.nextId, _data := data, hasDB := true },
       (db.insertRow "extractedsources" "xtrsrcid" data).2) := by
  have hreq := checkRequired_ok xtrsrcC.REQUIRED data h
  simp only [xtrsrcC] at hreq
  simp [ExtractedSource.new, DBObject.initData, hreq, DBObject.idGet, xtrsrcC,
    DB.insertRow]

/-- Loading an ExtractedSource by identity reads the row back. -/
theorem xtrsrc_load_by_id (i : Nat) (db : DB) (row : Attrs)
    (h : db.getRow "extractedsources" i = some row) :
    ExtractedSource.new none none true (some i) db =
      (Except.ok { _id := some i, _data := row, hasDB := true }, db) := by
  simp [ExtractedSource.new, DBObject.initData, DBObject.sync, xtrsrcC, h]

/-- Creating an Image fresh against a dataset with assigned identity `d`,
with the REQUIRED keys and `url` bound and no `ds_id` key supplied: one
image row is inserted, carrying `ds_id` from the dataset identity plus
`freq_eff`, `freq_bw`, `taustart_ts` and `url` — but not `tau_time`. -/
theorem image_fresh_create (data : Attrs) (ds : DataSetObj) (d : Nat) (db : DB)
    (fe fb ts u tt : Value)
    (hd : ds.base._id = some d)
    (hnods : lookupA data "ds_id" = none)
    (htt : lookupA data "tau_time" = some tt)
    (hfe : lookupA data "freq_eff" = some fe)
    (hfb : lookupA data "freq_bw" = some fb)
    (hts : lookupA data "taustart_ts" = some ts)
    (hu : lookupA data "url" = some u) :
    Image.new (some data) (some ds) true none db =
      (Except.ok ({ _id := some db.nextId, _data := insertA data "ds_id" d,
                    hasDB := true },
         some { base := ds.base,
                images := { _id := some db.nextId, _data := insertA data "ds_id" d,
                            hasDB := true } :: ds.images }),
       (db.insertRow "images" "imageid"
         [("ds_id", d), ("freq_eff", fe), ("freq_bw", fb), ("taustart_ts", ts),
          ("url", u)]).2) := by
  have hsd : setdefaultA data "ds_id" d = insertA data "ds_id" d := by
    simp [setdefaultA, hnods]
  have hreq : checkRequired imagesC.REQUIRED (insertA data "ds_id" d) =
      Except.ok () := by
    apply checkRequired_ok
    intro k hk
    simp [imagesC] at hk
    rcases hk with rfl | rfl | rfl | rfl | rfl <;>
      simp [lookupA_insertA, htt, hfe, hfb, hts]
  simp [Image.new, DataSet.idGet, hd, hsd, hreq, Image.idGet, lookupA_insertA,
    hfe, hfb, hts, hu, DB.insertRow]

/-- C7 (amended): an Image constructed fresh with a dataset argument whose
data map does not already contain a `ds_id` key ends up, whenever the
constructor returns, with its `ds_id` attribute equal to the dataset's
identity and itself registered in the dataset's in-memory images set.
(When the data map does already bind `ds_id`, `setdefault` keeps the
supplied value — see the counterexample.) -/
theorem image_dsid_from_dataset_when_unset (data : Attrs) (ds : DataSetObj)
    (d : Nat) (hasdb : Bool) (db : DB) (o2 : Obj) (dsr : Option DataSetObj)
    (db2 : DB) (hd : ds.base._id = some d) (hnods : lookupA data "ds_id" = none)
    (h : Image.new (some data) (some ds) hasdb none db =
      (Except.ok (o2, dsr), db2)) :
    DBObject.getattr o2 "ds_id" = Except.ok d ∧
    ∃ ds2, dsr = some ds2 ∧ o2 ∈ ds2.images := by
  have hsd : setdefaultA data "ds_id" d = insertA data "ds_id" d := by
    simp [setdefaultA, hnods]
  rcases htt : lookupA data "tau_time" with _ | tt <;>
  rcases hfe : lookupA data "freq_eff" with _ | fe <;>
  rcases hfb : lookupA data "freq_bw" with _ | fb <;>
  rcases hts : lookupA data "taustart_ts" with _ | ts <;>
  rcases hu : lookupA data "url" with _ | u <;>
  cases hasdb <;> cases hdb : ds.base.hasDB <;>
  simp_all [Image.new, DataSet.idGet, Image.idGet, checkRequired_cons,
    checkRequired_nil, DBObject.getattr, lookupA_insertA, imagesC]
  all_goals
    obtain ⟨⟨ho, hr⟩, hb⟩ := h
  all_goals subst ho
  all_goals subst hr
  all_goals exact ⟨by simp [lookupA_insertA], _, rfl, List.mem_cons_self _ _⟩

/-- The Image object created by `imgCreateW` (its snapshot holds `ds_id`
from the dataset identity plus the supplied keys). -/
def imgW7 : Obj :=
  ⟨some 2, [("ds_id", 1), ("tau_time", 30), ("freq_eff", 80), ("freq_bw", 2),
    ("taustart_ts", 7), ("url", 9)], true⟩

/-- The dataset object after `imgCreateW` registered the new image. -/
def dsAfterW7 : DataSetObj := { base := dsW.base, images := [imgW7] }

/-- The database after `imgCreateW`: the image row joins the dataset row. -/
def dbAfterW7 : DB :=
  { rows := [("images", 2, [("imageid", 2), ("ds_id", 1), ("freq_eff", 80),
      ("freq_bw", 2), ("taustart_ts", 7), ("url", 9)]),
     ("datasets", 1, [("dsid", 1), ("dsinname", 42)])],
    runcat := [], nextId := 3 }

/-- Witness for C7's amended theorem at the concrete image of `imgCreateW`. -/
theorem image_dsid_from_dataset_when_unset_witness :
    DBObject.getattr imgW7 "ds_id" = Except.ok 1 ∧
    ∃ ds2, some dsAfterW7 = some ds2 ∧ imgW7 ∈ ds2.images :=
  image_dsid_from_dataset_when_unset
    [("tau_time", 30), ("freq_eff", 80), ("freq_bw", 2), ("taustart_ts", 7),
     ("url", 9)] dsW 1 true dbW imgW7 (some dsAfterW7) dbAfterW7
    rfl (by decide) (by decide)

/-- The Image object produced when the supplied data already binds
`ds_id := 999` against the dataset with identity 1. -/
def imgCex7 : Obj :=
  ⟨some 2, [("ds_id", 999), ("tau_time", 30), ("freq_eff", 80), ("freq_bw", 2),
    ("taustart_ts", 7), ("url", 9)], true⟩

/-- Counterexample to C7 as stated: an Image constructed with a dataset of
identity 1 but a data map already binding `ds_id := 999` keeps 999 in its
snapshot (`setdefault` does not overwrite), so its `ds_id` attribute does
not equal the dataset's identity. -/
theorem image_dsid_conflicting_value_kept :
    (Image.new (some [("ds_id", 999), ("tau_time", 30), ("freq_eff", 80),
        ("freq_bw", 2), ("taustart_ts", 7), ("url", 9)])
      (some dsW) true none dbW).1 =
      Except.ok (imgCex7, some { base := dsW.base, images := [imgCex7] }) ∧
    dsW.base._id = some 1 ∧
    DBObject.getattr imgCex7 "ds_id" = Except.ok 999 ∧
    ¬ DBObject.getattr imgCex7 "ds_id" = Except.ok 1 := by
  decide

/-- C1 (amended): create-then-load round-trips on the columns written at
creation.  A DataSet persists (and so round-trips) `dsinname`; an
ExtractedSource persists its whole supplied dictionary, so every supplied
key except the id column round-trips; an Image — which additionally needs
`url` and a dataset whose identity is assigned, and whose data map here does
not pre-bind `ds_id` — round-trips on the columns its insert writes
(`ds_id` from the dataset identity, `freq_eff`, `freq_bw`, `taustart_ts`,
`url`); `tau_time`, though required, is not written at creation. -/
theorem create_load_roundtrip :
    (∀ (data : Attrs) (v : Value) (db : DB), lookupA data "dsinname" = some v →
      ∃ db2, DataSet.new (some data) true none db =
          (Except.ok ⟨⟨some db.nextId, data, true⟩, []⟩, db2) ∧
        ∃ dso2, DataSet.new none true (some db.nextId) db2 =
            (Except.ok dso2, db2) ∧
          lookupA dso2.base._data "dsinname" = some v) ∧
    (∀ (data : Attrs) (ds : DataSetObj) (d : Nat) (db : DB) (fe fb ts u tt : Value),
      ds.base._id = some d →
      lookupA data "ds_id" = none →
      lookupA data "tau_time" = some tt →
      lookupA data "freq_eff" = some fe →
      lookupA data "freq_bw" = some fb →
      lookupA data "taustart_ts" = some ts →
      lookupA data "url" = some u →
      ∃ o2 dsr db2, Image.new (some data) (some ds) true none db =
          (Except.ok (o2, dsr), db2) ∧ o2._id = some db.nextId ∧
        ∃ o3, Image.new none none true (some db.nextId) db2 =
            (Except.ok (o3, none), db2) ∧
          lookupA o3._data "ds_id" = some d ∧
          lookupA o3._data "freq_eff" = some fe ∧
          lookupA o3._data "freq_bw" = some fb ∧
          lookupA o3._data "taustart_ts" = some ts ∧
          lookupA o3._data "url" = some u) ∧
    (∀ (data : Attrs) (db : DB),
      (∀ k ∈ xtrsrcC.REQUIRED, (lookupA data k).isSome) →
      ∃ o2 db2, ExtractedSource.new (some data) none true none db =
          (Except.ok o2, db2) ∧ o2._id = some db.nextId ∧
        ∃ o3, ExtractedSource.new none none true (some db.nextId) db2 =
            (Except.ok o3, db2) ∧
          ∀ k, ¬ k = "xtrsrcid" → lookupA o3._data k = lookupA data k) := by
  refine ⟨?_, ?_, ?_⟩
  · intro data v db h
    refine ⟨(db.insertRow "datasets" "dsid" [("dsinname", v)]).2,
      dataset_fresh_create data v db h, ?_⟩
    have hrow := DB.getRow_insertRow_self db "datasets" "dsid" [("dsinname", v)]
    refine ⟨_, dataset_load_by_id db.nextId _ _ hrow, ?_⟩
    simp [lookupA_insertA]
  · intro data ds d db fe fb ts u tt hd hnods htt hfe hfb hts hu
    refine ⟨_, _, _, image_fresh_create data ds d db fe fb ts u tt hd hnods htt
      hfe hfb hts hu, rfl, ?_⟩
    have hrow := DB.getRow_insertRow_self db "images" "imageid"
      [("ds_id", d), ("freq_eff", fe), ("freq_bw", fb), ("taustart_ts", ts),
       ("url", u)]
    refine ⟨_, image_load_by_id db.nextId _ _ hrow, ?_⟩
    simp [lookupA_insertA]
  · intro data db h
    refine ⟨_, _, xtrsrc_fresh_create data db h, rfl, ?_⟩
    have hrow := DB.getRow_insertRow_self db "extractedsources" "xtrsrcid" data
    refine ⟨_, xtrsrc_load_by_id db.nextId _ _ hrow, ?_⟩
    intro k hk
    have hk2 : ¬ ("xtrsrcid" = k) := fun h => hk h.symm
    simp [lookupA_insertA, hk2]

/-- Witness for C1's amended theorem: each round-trip at a concrete input. -/
theorem create_load_roundtrip_witness :
    (∃ db2, DataSet.new (some [("dsinname", 42)]) true none dbW =
        (Except.ok ⟨⟨some 2, [("dsinname", 42)], true⟩, []⟩, db2) ∧
      ∃ dso2, DataSet.new none true (some 2) db2 = (Except.ok dso2, db2) ∧
        lookupA dso2.base._data "dsinname" = some 42) ∧
    (∃ o2 dsr db2, Image.new (some [("tau_time", 30), ("freq_eff", 80),
        ("freq_bw", 2), ("taustart_ts", 7), ("url", 9)]) (some dsW) true none
        dbW = (Except.ok (o2, dsr), db2) ∧ o2._id = some 2 ∧
      ∃ o3, Image.new none none true (some 2) db2 = (Except.ok (o3, none), db2) ∧
        lookupA o3._data "ds_id" = some 1 ∧
        lookupA o3._data "freq_eff" = some 80 ∧
        lookupA o3._data "freq_bw" = some 2 ∧
        lookupA o3._data "taustart_ts" = some 7 ∧
        lookupA o3._data "url" = some 9) ∧
    (∃ o2 db2, ExtractedSource.new (some [("image_id", 2), ("zone", 1),
        ("ra", 10), ("decl", 11), ("ra_err", 12), ("decl_err", 13), ("x", 14),
        ("y", 15), ("z", 16), ("det_sigma", 17)]) none true none dbW =
        (Except.ok o2, db2) ∧ o2._id = some 2 ∧
      ∃ o3, ExtractedSource.new none none true (some 2) db2 =
          (Except.ok o3, db2) ∧
        ∀ k, ¬ k = "xtrsrcid" → lookupA o3._data k =
          lookupA [("image_id", 2), ("zone", 1), ("ra", 10), ("decl", 11),
            ("ra_err", 12), ("decl_err", 13), ("x", 14), ("y", 15), ("z", 16),
            ("det_sigma", 17)] k) :=
  ⟨create_load_roundtrip.1 [("dsinname", 42)] 42 dbW (by decide),
   create_load_roundtrip.2.1 [("tau_time", 30), ("freq_eff", 80), ("freq_bw", 2),
     ("taustart_ts", 7), ("url", 9)] dsW 1 dbW 80 2 7 9 30 rfl (by decide)
     (by decide) (by decide) (by decide) (by decide) (by decide),
   create_load_roundtrip.2.2 [("image_id", 2), ("zone", 1), ("ra", 10),
     ("decl", 11), ("ra_err", 12), ("decl_err", 13), ("x", 14), ("y", 15),
     ("z", 16), ("det_sigma", 17)] dbW (by decide)⟩

/-- Counterexample to C1 as stated: this data map binds every attribute in
Image's required set, yet creating the Image fails with a KeyError on the
`url` key (which the insert reads although it is not in REQUIRED), so no
identity is assigned and no load can round-trip; the database is unchanged. -/
theorem roundtrip_fails_without_url :
    (∀ k ∈ imagesC.REQUIRED,
      (lookupA [("ds_id", 1), ("tau_time", 11), ("freq_eff", 12),
        ("freq_bw", 13), ("taustart_ts", 14)] k).isSome) ∧
    Image.new (some [("ds_id", 1), ("tau_time", 11), ("freq_eff", 12),
        ("freq_bw", 13), ("taustart_ts", 14)]) (some dsW) true none dbW =
      (Except.error (Err.keyErr "url"), dbW) := by
  decide

/-- C4 (amended): creating an entity fresh with a required attribute missing
fails with the missing-required-field AttributeError before anything is
written, leaving the persisted state unchanged (for an Image, against a
dataset whose identity is already assigned, as the DataSet constructor
guarantees); with all required attributes present, creation inserts exactly
one row and stores the newly assigned identity — except that an Image
additionally requires the `url` attribute (not in its REQUIRED set), whose
absence makes creation fail with a KeyError instead of succeeding. -/
theorem create_requires_required_fields :
    (∀ (data : Attrs) (db : DB) (k : String),
      datasetsC.REQUIRED.find? (fun s => (lookupA data s).isNone) = some k →
      DataSet.new (some data) true none db =
        (Except.error (Err.attrErr ("missing required data key: " ++ k)), db)) ∧
    (∀ (data : Attrs) (ds : DataSetObj) (d : Nat) (db : DB) (k : String),
      ds.base._id = some d →
      imagesC.REQUIRED.find?
          (fun s => (lookupA (setdefaultA data "ds_id" d) s).isNone) = some k →
      Image.new (some data) (some ds) true none db =
        (Except.error (Err.attrErr ("missing required data key: " ++ k)), db)) ∧
    (∀ (data : Attrs) (db : DB) (k : String),
      xtrsrcC.REQUIRED.find? (fun s => (lookupA data s).isNone) = some k →
      ExtractedSource.new (some data) none true none db =
        (Except.error (Err.attrErr ("missing required data key: " ++ k)), db)) ∧
    (∀ (data : Attrs) (v : Value) (db : DB), lookupA data "dsinname" = some v →
      ∃ dso db2, DataSet.new (some data) true none db = (Except.ok dso, db2) ∧
        dso.base._id = some db.nextId ∧
        db2.rows = ("datasets", db.nextId,
          insertA [("dsinname", v)] "dsid" db.nextId) :: db.rows) ∧
    (∀ (data : Attrs) (ds : DataSetObj) (d : Nat) (db : DB) (fe fb ts u tt : Value),
      ds.base._id = some d →
      lookupA data "ds_id" = none →
      lookupA data "tau_time" = some tt →
      lookupA data "freq_eff" = some fe →
      lookupA data "freq_bw" = some fb →
      lookupA data "taustart_ts" = some ts →
      lookupA data "url" = some u →
      ∃ o2 dsr db2, Image.new (some data) (some ds) true none db =
          (Except.ok (o2, dsr), db2) ∧
        o2._id = some db.nextId ∧
        db2.rows = ("images", db.nextId,
          insertA [("ds_id", d), ("freq_eff", fe), ("freq_bw", fb),
            ("taustart_ts", ts), ("url", u)] "imageid" db.nextId) :: db.rows) ∧
    (∀ (data : Attrs) (db : DB),
      (∀ k ∈ xtrsrcC.REQUIRED, (lookupA data k).isSome) →
      ∃ o2 db2, ExtractedSource.new (some data) none true none db =
          (Except.ok o2, db2) ∧
        o2._id = some db.nextId ∧
        db2.rows = ("extractedsources", db.nextId,
          insertA data "xtrsrcid" db.nextId) :: db.rows) := by
  refine ⟨?_, ?_, ?_, ?_, ?_, ?_⟩
  · intro data db k hfind
    simp [DataSet.new, DBObject.initData, checkRequired, hfind]
  · intro data ds d db k hd hfind
    simp [Image.new, DataSet.idGet, hd, checkRequired, hfind]
  · intro data db k hfind
    simp [ExtractedSource.new, DBObject.initData, checkRequired, hfind]
  · intro data v db h
    exact ⟨_, _, dataset_fresh_create data v db h, rfl, rfl⟩
  · intro data ds d db fe fb ts u tt hd hnods htt hfe hfb hts hu
    exact ⟨_, _, _, image_fresh_create data ds d db fe fb ts u tt hd hnods htt
      hfe hfb hts hu, rfl, rfl⟩
  · intro data db h
    exact ⟨_, _, xtrsrc_fresh_create data db h, rfl, rfl⟩

/-- Witness for C4's amended theorem: a rejected and an accepted creation. -/
theorem create_requires_required_fields_witness :
    DataSet.new (some [("nonsense", 5)]) true none dbW =
      (Except.error (Err.attrErr "missing required data key: dsinname"), dbW) ∧
    Image.new (some [("tau_time", 30), ("freq_bw", 2), ("taustart_ts", 7),
        ("url", 9)]) (some dsW) true none dbW =
      (Except.error (Err.attrErr "missing required data key: freq_eff"), dbW) ∧
    ExtractedSource.new (some [("image_id", 2)]) none true none dbW =
      (Except.error (Err.attrErr "missing required data key: zone"), dbW) ∧
    (∃ dso db2, DataSet.new (some [("dsinname", 8)]) true none dbW =
        (Except.ok dso, db2) ∧ dso.base._id = some 2 ∧
      db2.rows = ("datasets", 2, insertA [("dsinname", 8)] "dsid" 2) :: dbW.rows) :=
  ⟨create_requires_required_fields.1 [("nonsense", 5)] dbW "dsinname" (by decide),
   create_requires_required_fields.2.1 [("tau_time", 30), ("freq_bw", 2),
     ("taustart_ts", 7), ("url", 9)] dsW 1 dbW "freq_eff" rfl (by decide),
   create_requires_required_fields.2.2.1 [("image_id", 2)] dbW "zone" (by decide),
   create_requires_required_fields.2.2.2.1 [("dsinname", 8)] 8 dbW (by decide)⟩

/-- Counterexample to C4 as stated: a data map binding every attribute in
Image's required set, for which creation nevertheless fails (KeyError on
`url`) instead of inserting a row and returning an identity. -/
theorem creation_fails_without_url :
    (∀ k ∈ imagesC.REQUIRED,
      (lookupA [("ds_id", 1), ("tau_time", 21), ("freq_eff", 22),
        ("freq_bw", 23), ("taustart_ts", 24)] k).isSome) ∧
    Image.new (some [("ds_id", 1), ("tau_time", 21), ("freq_eff", 22),
        ("freq_bw", 23), ("taustart_ts", 24)]) (some dsW) true none dbW =
      (Except.error (Err.keyErr "url"), dbW) := by
  decide

end TKP
